import Mathlib

/-!
Shallow embedding of `src/model.py` (smart warehouse IoT simulation).

Python floats are modelled as rationals (ℚ); every call to the global
random generator becomes an explicit parameter of the function that draws
it (`latency_draw` for `random.uniform(*latency_range_ms)`, `drop_draw`
and `accept_draw` for the two `random.random()` calls).  Python `dict`s
become association lists whose lookup takes the most recent binding, and
mutable objects are threaded explicitly: a method that in Python could
mutate `self` returns the new object next to its result, so that frame
properties are statements about the returned object.
-/

namespace Warehouse

/-- `Message` dataclass of `model.py`: a request from a device to the
controller.  The payload is a `Dict[str, Any]` that is never inspected by
the core logic; string keys and values suffice for the embedding. -/
structure Message where
  device_id : String
  role : String
  action : String
  payload : List (String × String)
  credentials : Option String
deriving DecidableEq, Repr

/-- `MessageResult` dataclass of `model.py`. -/
structure MessageResult where
  delivered : Bool
  latency_ms : ℚ
  accepted : Bool
  authorised : Bool
  reason : String
deriving DecidableEq, Repr

/-- `RegisteredDevice` dataclass of `model.py`. -/
structure RegisteredDevice where
  device_id : String
  role : String
  api_key : Option String
deriving DecidableEq, Repr

/-- The dictionary returned by `Controller.process_message`. -/
structure Decision where
  accepted : Bool
  authorised : Bool
  reason : String
  security_overhead_ms : ℚ
deriving DecidableEq, Repr

/-- Python truthiness of an optional string: `not x` is true exactly when
`x` is `None` or the empty string.  Used for `not registered.api_key` and
`not message.credentials` in `Controller._authenticate_secure`. -/
def str_falsy : Option String → Bool
  | none => true
  | some s => decide (s = "")

/-- `dict.get` on an association list: the most recent binding wins, as in
a Python dict where `register_device` overwrites the entry for a key. -/
def alist_get {α : Type} : List (String × α) → String → Option α
  | [], _ => none
  | (k, v) :: rest, key => if k = key then some v else alist_get rest key

/-- Controller state: mode, device registry (`device_id → RegisteredDevice`),
security overhead, and the RBAC policy (`role → allowed actions`). -/
structure Controller where
  mode : String
  device_registry : List (String × RegisteredDevice)
  security_overhead_ms : ℚ
  rbac_policies : List (String × List String)
deriving DecidableEq, Repr

/-- The default RBAC table built in `Controller.__init__`. -/
def default_rbac : List (String × List String) :=
  [("sensor", ["send_status"]),
   ("robot", ["move", "shutdown", "send_status"]),
   ("viewer", ["read_status"])]

/-- `Controller.__init__`: raising `ValueError` on an unrecognised mode is
modelled with `Except`.  `rbac_policies or default` uses Python truthiness:
`None` and the empty dict both fall back to the default table. -/
def Controller.make (mode : String) (rbac_policies : Option (List (String × List String)))
    (security_overhead_ms : ℚ) : Except String Controller :=
  if mode ≠ "weak" ∧ mode ≠ "secure" then
    Except.error "mode must be weak or secure"
  else
    Except.ok
      { mode := mode
        device_registry := []
        security_overhead_ms := security_overhead_ms
        rbac_policies :=
          match rbac_policies with
          | none => default_rbac
          | some l => if l = [] then default_rbac else l }

/-- `True` on `Except.ok`, mirroring that construction did not raise. -/
def exceptOk {ε α : Type} : Except ε α → Bool
  | Except.ok _ => true
  | Except.error _ => false

/-- `Controller.register_device`: insert or overwrite the entry keyed by
`device_id` (last write wins). -/
def Controller.register_device (c : Controller) (device_id role : String)
    (api_key : Option String) : Controller :=
  { c with device_registry :=
      (device_id, RegisteredDevice.mk device_id role api_key) :: c.device_registry }

/-- `Controller._authenticate_weak`: authenticated iff the device id is a
key of the registry; credentials are never inspected. -/
def Controller.authenticate_weak (c : Controller) (m : Message) : Bool × String :=
  match alist_get c.device_registry m.device_id with
  | some _ => (true, "auth_ok_weak")
  | none => (false, "unknown_device")

/-- `Controller._authenticate_secure`: unknown device, then missing key
(registered key falsy OR message credentials falsy), then mismatch, else
success. -/
def Controller.authenticate_secure (c : Controller) (m : Message) : Bool × String :=
  match alist_get c.device_registry m.device_id with
  | none => (false, "unknown_device")
  | some registered =>
    if str_falsy registered.api_key || str_falsy m.credentials then
      (false, "missing_api_key")
    else if registered.api_key ≠ m.credentials then
      (false, "invalid_api_key")
    else
      (true, "auth_ok_secure")

/-- `Controller._authorise`: `rbac_policies.get(role, set())` then a
membership test on the action. -/
def Controller.authorise (c : Controller) (role action : String) : Bool × String :=
  let allowed_actions := (alist_get c.rbac_policies role).getD []
  if action ∈ allowed_actions then (true, "authorised") else (false, "forbidden_action")

/-- `Controller.process_message`.  `accept_draw` is the value that
`random.random()` would return for the weak-mode accept-anyway branch;
the Python code draws it only when weak-mode authentication fails, so it
is consumed only there.  The returned `Controller` is the post-state of
`self` (the Python method never assigns to `self`). -/
def Controller.process_message (c : Controller) (m : Message) (accept_draw : ℚ) :
    Decision × Controller :=
  let overhead_ms : ℚ := if c.mode = "secure" then c.security_overhead_ms else 0
  let auth := if c.mode = "weak" then c.authenticate_weak m else c.authenticate_secure m
  if auth.1 = false then
    if c.mode = "weak" ∧ accept_draw < 1 / 2 then
      (Decision.mk true false ("accepted_without_auth:" ++ auth.2) overhead_ms, c)
    else
      (Decision.mk false false auth.2 overhead_ms, c)
  else if c.mode = "secure" then
    let authz := c.authorise m.role m.action
    if authz.1 = false then
      (Decision.mk false false authz.2 overhead_ms, c)
    else
      (Decision.mk true true "secure_accept" overhead_ms, c)
  else
    (Decision.mk true true "weak_accept_no_rbac" overhead_ms, c)

/-- `NetworkSimulator` state. -/
structure NetworkSimulator where
  latency_range_ms : ℚ × ℚ
  loss_probability : ℚ
deriving DecidableEq, Repr

/-- `NetworkSimulator.send`: `latency_draw` is the result of
`random.uniform(*latency_range_ms)` and `drop_draw` the result of
`random.random()` for the loss test; `accept_draw` is forwarded to the
controller.  On a drop the controller is not invoked and is returned
unchanged next to the drop result. -/
def NetworkSimulator.send (net : NetworkSimulator) (m : Message) (c : Controller)
    (latency_draw drop_draw accept_draw : ℚ) : MessageResult × Controller :=
  let latency_ms := latency_draw
  if drop_draw < net.loss_probability then
    (MessageResult.mk false latency_ms false false "network_drop", c)
  else
    let pc := c.process_message m accept_draw
    (MessageResult.mk true (latency_ms + pc.1.security_overhead_ms)
      pc.1.accepted pc.1.authorised pc.1.reason, pc.2)

/-- `Device` of `model.py`; the network and controller references it holds
are passed explicitly at each send. -/
structure Device where
  device_id : String
  role : String
  api_key : Option String
deriving DecidableEq, Repr

/-- `Device.send_action`: build a `Message` from the device's own stored
identity, role and credentials and submit it through the network. -/
def Device.send_action (d : Device) (action : String) (payload : List (String × String))
    (net : NetworkSimulator) (c : Controller) (latency_draw drop_draw accept_draw : ℚ) :
    MessageResult × Controller :=
  net.send (Message.mk d.device_id d.role action payload d.api_key) c
    latency_draw drop_draw accept_draw

/-- `RogueDevice.send_malicious_action` is `Device.send_action` verbatim. -/
def Device.send_malicious_action (d : Device) (action : String)
    (payload : List (String × String)) (net : NetworkSimulator) (c : Controller)
    (latency_draw drop_draw accept_draw : ℚ) : MessageResult × Controller :=
  d.send_action action payload net c latency_draw drop_draw accept_draw

/-- The fixed reason vocabulary a `MessageResult` of `send` can carry
(§6 of the spec; `auth_ok_weak` and `auth_ok_secure` are internal reasons
that are replaced before a result is built, and the only
`accepted_without_auth:<r>` actually reachable has `r = unknown_device`). -/
def reason_vocab (r : String) : Prop :=
  r = "network_drop" ∨ r = "unknown_device" ∨ r = "missing_api_key" ∨
  r = "invalid_api_key" ∨ r = "forbidden_action" ∨ r = "secure_accept" ∨
  r = "weak_accept_no_rbac" ∨ r = "accepted_without_auth:unknown_device"

/-- Concrete secure-mode controller used by witnesses (mirrors the setup of
`test_secure_authentication_success` in `tests.py`). -/
def cSecure : Controller :=
  { mode := "secure"
    device_registry := [("device_1", RegisteredDevice.mk "device_1" "sensor" (some "key-device_1"))]
    security_overhead_ms := 5
    rbac_policies := default_rbac }

/-- Concrete weak-mode controller used by witnesses. -/
def cWeak : Controller :=
  { mode := "weak"
    device_registry := [("device_1", RegisteredDevice.mk "device_1" "sensor" (some "key-device_1"))]
    security_overhead_ms := 5
    rbac_policies := default_rbac }

/-- Concrete lossless network used by witnesses. -/
def net0 : NetworkSimulator := NetworkSimulator.mk (10, 100) 0

/-- Concrete legitimate message used by witnesses. -/
def msg1 : Message := Message.mk "device_1" "sensor" "send_status" [] (some "key-device_1")

/-- Concrete message from an unregistered device used by witnesses. -/
def msgRogue : Message := Message.mk "rogue_1" "robot" "shutdown" [] (some "invalid-key")

/-- Concrete legitimate device used by witnesses. -/
def d1 : Device := Device.mk "device_1" "sensor" (some "key-device_1")

/-- The registry record of `d1` inside `cSecure` and `cWeak`. -/
def r1 : RegisteredDevice := RegisteredDevice.mk "device_1" "sensor" (some "key-device_1")

/-- Concrete network with certain loss, used by witnesses. -/
def netLossy : NetworkSimulator := NetworkSimulator.mk (10, 100) 1

/-- Concrete message with valid credentials but a role absent from the
RBAC table, used by witnesses. -/
def msgGhost : Message := Message.mk "device_1" "ghost" "send_status" [] (some "key-device_1")

end Warehouse

namespace Warehouse

/-- C1: for every `MessageResult` returned by `NetworkSimulator.send`, over
any message, controller state and random draws, `accepted = true` implies
`delivered = true` and `authorised = true` implies `accepted = true`. -/
theorem send_invariants (net : NetworkSimulator) (m : Message) (c : Controller)
    (latency_draw drop_draw accept_draw : ℚ) :
    ((net.send m c latency_draw drop_draw accept_draw).1.accepted = true →
      (net.send m c latency_draw drop_draw accept_draw).1.delivered = true) ∧
    ((net.send m c latency_draw drop_draw accept_draw).1.authorised = true →
      (net.send m c latency_draw drop_draw accept_draw).1.accepted = true) := by
  unfold NetworkSimulator.send Controller.process_message
  split
  · simp
  · dsimp only
    repeat' split
    all_goals simp

/-- Witness for C1 at the concrete secure happy-path input. -/
theorem send_invariants_witness :
    (net0.send msg1 cSecure 50 0 0).1.delivered = true ∧
    (net0.send msg1 cSecure 50 0 0).1.accepted = true :=
  ⟨(send_invariants net0 msg1 cSecure 50 0 0).1 (by decide),
   (send_invariants net0 msg1 cSecure 50 0 0).2 (by decide)⟩

/-- C2: in weak mode `process_message` is fully determined by registry
membership and the fallback draw: a registered device id gives
`accepted, authorised, "weak_accept_no_rbac"` whatever the action, role or
credentials; an unknown id gives the accept-anyway override exactly when
the fresh draw is below `0.5`, otherwise a plain rejection; and the
override is never applied in secure mode (accepted implies authorised
there). -/
theorem weak_mode_decision (c : Controller) (m : Message) (accept_draw : ℚ)
    (hmode : c.mode = "weak") :
    (∀ r, alist_get c.device_registry m.device_id = some r →
      c.process_message m accept_draw =
        (Decision.mk true true "weak_accept_no_rbac" 0, c)) ∧
    (alist_get c.device_registry m.device_id = none →
      (accept_draw < 1 / 2 →
        c.process_message m accept_draw =
          (Decision.mk true false "accepted_without_auth:unknown_device" 0, c)) ∧
      (¬ accept_draw < 1 / 2 →
        c.process_message m accept_draw =
          (Decision.mk false false "unknown_device" 0, c))) ∧
    (∀ (c₂ : Controller) (m₂ : Message) (draw₂ : ℚ), c₂.mode = "secure" →
      (c₂.process_message m₂ draw₂).1.accepted = true →
      (c₂.process_message m₂ draw₂).1.authorised = true) := by
  refine ⟨?_, ?_, ?_⟩
  · intro r hr
    simp [Controller.process_message, Controller.authenticate_weak, hmode, hr]
  · intro hnone
    constructor
    · intro hd
      simp [Controller.process_message, Controller.authenticate_weak, hmode, hnone, hd]
      all_goals linarith
    · intro hd
      simp [Controller.process_message, Controller.authenticate_weak, hmode, hnone, hd]
      all_goals linarith
  · intro c₂ m₂ draw₂ h₂ hacc
    revert hacc
    simp only [Controller.process_message, h₂]
    repeat' split
    all_goals simp_all

/-- Witness for C2 at a concrete weak controller with a registered device. -/
theorem weak_mode_decision_witness :
    cWeak.process_message msg1 0 = (Decision.mk true true "weak_accept_no_rbac" 0, cWeak) :=
  (weak_mode_decision cWeak msg1 0 rfl).1
    (RegisteredDevice.mk "device_1" "sensor" (some "key-device_1")) rfl

/-- C3: with `loss_probability = 0` and secure mode, a registered device
whose stored api_key is a non-empty `k`, sending through
`Device.send_action` an action allowed for its role and carrying `k` as
credentials, gets `delivered, accepted, authorised` all true with reason
`"secure_accept"`. -/
theorem secure_happy_path (d : Device) (net : NetworkSimulator) (c : Controller)
    (action : String) (payload : List (String × String)) (k : String)
    (reg : RegisteredDevice) (latency_draw drop_draw accept_draw : ℚ)
    (hmode : c.mode = "secure")
    (hloss : net.loss_probability = 0)
    (hdrop : 0 ≤ drop_draw)
    (hreg : alist_get c.device_registry d.device_id = some reg)
    (hkey : reg.api_key = some k)
    (hk : k ≠ "")
    (hcred : d.api_key = some k)
    (hact : action ∈ (alist_get c.rbac_policies d.role).getD []) :
    (d.send_action action payload net c latency_draw drop_draw accept_draw).1 =
      MessageResult.mk true (latency_draw + c.security_overhead_ms) true true "secure_accept" := by
  have hnd : ¬ drop_draw < net.loss_probability := by rw [hloss]; exact not_lt.mpr hdrop
  unfold Device.send_action NetworkSimulator.send
  simp [hnd, Controller.process_message, Controller.authenticate_secure, Controller.authorise,
    str_falsy, hmode, hreg, hkey, hk, hcred, hact]

/-- Witness for C3 at the concrete secure happy-path input. -/
theorem secure_happy_path_witness :
    (d1.send_action "send_status" [] net0 cSecure 50 0 0).1 =
      MessageResult.mk true (50 + cSecure.security_overhead_ms) true true "secure_accept" :=
  secure_happy_path d1 net0 cSecure "send_status" [] "key-device_1" r1 50 0 0
    rfl rfl (by norm_num) rfl rfl (by decide) rfl (by decide)

/-- Every outcome of `_authenticate_secure`: success with
`"auth_ok_secure"`, or failure with one of the three failure reasons. -/
lemma authenticate_secure_cases (c : Controller) (m : Message) :
    c.authenticate_secure m = (true, "auth_ok_secure") ∨
    c.authenticate_secure m = (false, "unknown_device") ∨
    c.authenticate_secure m = (false, "missing_api_key") ∨
    c.authenticate_secure m = (false, "invalid_api_key") := by
  unfold Controller.authenticate_secure
  rcases alist_get c.device_registry m.device_id with _ | r
  · simp
  · dsimp only
    repeat' split
    all_goals simp

/-- C4: in secure mode authentication fails with `"unknown_device"` when
the id is unknown, else `"missing_api_key"` when the registered key or the
carried credentials are falsy (absent or empty), else `"invalid_api_key"`
on a mismatch; and on any authentication failure `process_message` returns
`accepted = false, authorised = false` with that reason and no override. -/
theorem secure_auth_failure (c : Controller) (m : Message) (accept_draw : ℚ) :
    (alist_get c.device_registry m.device_id = none →
      c.authenticate_secure m = (false, "unknown_device")) ∧
    (∀ reg, alist_get c.device_registry m.device_id = some reg →
      (str_falsy reg.api_key || str_falsy m.credentials) = true →
      c.authenticate_secure m = (false, "missing_api_key")) ∧
    (∀ reg, alist_get c.device_registry m.device_id = some reg →
      (str_falsy reg.api_key || str_falsy m.credentials) = false →
      reg.api_key ≠ m.credentials →
      c.authenticate_secure m = (false, "invalid_api_key")) ∧
    (c.mode = "secure" → (c.authenticate_secure m).1 = false →
      c.process_message m accept_draw =
        (Decision.mk false false (c.authenticate_secure m).2 c.security_overhead_ms, c)) := by
  refine ⟨?_, ?_, ?_, ?_⟩
  · intro hnone
    simp [Controller.authenticate_secure, hnone]
  · intro reg hreg hfalsy
    simp [Controller.authenticate_secure, hreg, hfalsy]
  · intro reg hreg hfalsy hne
    simp [Controller.authenticate_secure, hreg, hfalsy, hne]
  · intro hmode hfail
    simp [Controller.process_message, hmode, hfail]

/-- Witness for C4: an unregistered device id rejected in secure mode. -/
theorem secure_auth_failure_witness :
    cSecure.authenticate_secure msgRogue = (false, "unknown_device") ∧
    cSecure.process_message msgRogue 0 =
      (Decision.mk false false (cSecure.authenticate_secure msgRogue).2
        cSecure.security_overhead_ms, cSecure) :=
  ⟨(secure_auth_failure cSecure msgRogue 0).1 rfl,
   (secure_auth_failure cSecure msgRogue 0).2.2.2 rfl rfl⟩

/-- C5: in secure mode, once authentication succeeds the decision depends
only on the claimed role and action: accepted (with `"secure_accept"`) iff
`message.action` is in the allowed set looked up under `message.role`,
otherwise rejected with `"forbidden_action"`. -/
theorem secure_rbac_decision (c : Controller) (m : Message) (accept_draw : ℚ)
    (hmode : c.mode = "secure")
    (hauth : (c.authenticate_secure m).1 = true) :
    (m.action ∈ (alist_get c.rbac_policies m.role).getD [] →
      c.process_message m accept_draw =
        (Decision.mk true true "secure_accept" c.security_overhead_ms, c)) ∧
    (m.action ∉ (alist_get c.rbac_policies m.role).getD [] →
      c.process_message m accept_draw =
        (Decision.mk false false "forbidden_action" c.security_overhead_ms, c)) ∧
    ((c.process_message m accept_draw).1.accepted = true ↔
      m.action ∈ (alist_get c.rbac_policies m.role).getD []) := by
  refine ⟨?_, ?_, ?_⟩
  · intro hact
    simp [Controller.process_message, Controller.authorise, hmode, hauth, hact]
  · intro hact
    simp [Controller.process_message, Controller.authorise, hmode, hauth, hact]
  · by_cases hact : m.action ∈ (alist_get c.rbac_policies m.role).getD [] <;>
      simp [Controller.process_message, Controller.authorise, hmode, hauth, hact]

/-- Witness for C5: the registered sensor message is accepted, and its
acceptance matches the RBAC membership test. -/
theorem secure_rbac_decision_witness :
    cSecure.process_message msg1 0 =
      (Decision.mk true true "secure_accept" cSecure.security_overhead_ms, cSecure) :=
  (secure_rbac_decision cSecure msg1 0 rfl rfl).1 (by decide)

/-- C6: a drop draw below `loss_probability` yields the `"network_drop"`
result with the drawn base latency and the untouched controller; with
`loss_probability = 1` this happens for every draw in `[0, 1)`; and on a
drop the result does not depend on the controller or the accept draw (the
controller is never invoked). -/
theorem network_drop_behaviour (net : NetworkSimulator) (m : Message) (c : Controller)
    (latency_draw drop_draw accept_draw : ℚ) :
    (drop_draw < net.loss_probability →
      net.send m c latency_draw drop_draw accept_draw =
        (MessageResult.mk false latency_draw false false "network_drop", c)) ∧
    (net.loss_probability = 1 → 0 ≤ drop_draw → drop_draw < 1 →
      net.send m c latency_draw drop_draw accept_draw =
        (MessageResult.mk false latency_draw false false "network_drop", c)) ∧
    (drop_draw < net.loss_probability →
      ∀ (c₂ : Controller) (accept_draw₂ : ℚ),
        (net.send m c₂ latency_draw drop_draw accept_draw₂).1 =
          (net.send m c latency_draw drop_draw accept_draw).1) := by
  refine ⟨?_, ?_, ?_⟩
  · intro hdrop
    simp [NetworkSimulator.send, hdrop]
  · intro hloss _ hlt
    have hdrop : drop_draw < net.loss_probability := by rw [hloss]; exact hlt
    simp [NetworkSimulator.send, hdrop]
  · intro hdrop c₂ accept_draw₂
    simp [NetworkSimulator.send, hdrop]

/-- Witness for C6 at certain loss and a zero drop draw. -/
theorem network_drop_behaviour_witness :
    netLossy.send msg1 cSecure 50 0 0 =
      (MessageResult.mk false 50 false false "network_drop", cSecure) :=
  (network_drop_behaviour netLossy msg1 cSecure 50 0 0).2.1 rfl (by norm_num) (by norm_num)

/-- The `security_overhead_ms` field of every decision equals
`security_overhead_ms` in secure mode and `0` otherwise (step 1 of the
decision algorithm, returned by every branch). -/
lemma process_overhead_eq (c : Controller) (m : Message) (accept_draw : ℚ) :
    (c.process_message m accept_draw).1.security_overhead_ms =
      if c.mode = "secure" then c.security_overhead_ms else 0 := by
  simp only [Controller.process_message]
  repeat' split
  all_goals rfl

/-- C7: assuming a well-formed latency range and a non-negative overhead,
any delivered message has `latency_ms` within
`[latency_range_ms.min, latency_range_ms.max + security_overhead_ms]`, and
the overhead added to the base latency is exactly `security_overhead_ms`
in secure mode and `0` in weak mode, in every branch of the decision. -/
theorem latency_bounds (net : NetworkSimulator) (m : Message) (c : Controller)
    (latency_draw drop_draw accept_draw : ℚ)
    (hmin0 : 0 ≤ net.latency_range_ms.1)
    (hrange : net.latency_range_ms.1 ≤ net.latency_range_ms.2)
    (hmin : net.latency_range_ms.1 ≤ latency_draw)
    (hmax : latency_draw ≤ net.latency_range_ms.2)
    (hsec : 0 ≤ c.security_overhead_ms) :
    ((net.send m c latency_draw drop_draw accept_draw).1.delivered = true →
      net.latency_range_ms.1 ≤ (net.send m c latency_draw drop_draw accept_draw).1.latency_ms ∧
      (net.send m c latency_draw drop_draw accept_draw).1.latency_ms ≤
        net.latency_range_ms.2 + c.security_overhead_ms) ∧
    (∀ (draw : ℚ), (c.process_message m draw).1.security_overhead_ms =
      if c.mode = "secure" then c.security_overhead_ms else 0) := by
  constructor
  · by_cases hdrop : drop_draw < net.loss_probability
    · intro hdel
      exfalso
      simp [NetworkSimulator.send, hdrop] at hdel
    · intro _
      have hov := process_overhead_eq c m accept_draw
      simp only [NetworkSimulator.send, if_neg hdrop]
      rw [hov]
      constructor
      · split
        · linarith
        · linarith
      · split
        · linarith
        · linarith
  · intro draw
    exact process_overhead_eq c m draw

/-- Witness for C7 at the concrete secure happy-path input. -/
theorem latency_bounds_witness :
    net0.latency_range_ms.1 ≤ (net0.send msg1 cSecure 50 0 0).1.latency_ms ∧
    (net0.send msg1 cSecure 50 0 0).1.latency_ms ≤
      net0.latency_range_ms.2 + cSecure.security_overhead_ms :=
  (latency_bounds net0 msg1 cSecure 50 0 0 (by norm_num [net0])
    (by norm_num [net0]) (by norm_num [net0]) (by norm_num [net0])
    (by norm_num [cSecure])).1 (by decide)

/-- C9: `process_message` has no side effect on the controller: the
post-state equals the pre-state in every field, so in particular every
registered device's api_key is unchanged by processing a message. -/
theorem process_message_frame (c : Controller) (m : Message) (accept_draw : ℚ) :
    (c.process_message m accept_draw).2 = c ∧
    (c.process_message m accept_draw).2.mode = c.mode ∧
    (c.process_message m accept_draw).2.device_registry = c.device_registry ∧
    (c.process_message m accept_draw).2.rbac_policies = c.rbac_policies ∧
    (c.process_message m accept_draw).2.security_overhead_ms = c.security_overhead_ms ∧
    (∀ (id : String),
      (alist_get (c.process_message m accept_draw).2.device_registry id).map
          RegisteredDevice.api_key =
        (alist_get c.device_registry id).map RegisteredDevice.api_key) := by
  have h : (c.process_message m accept_draw).2 = c := by
    simp only [Controller.process_message]
    repeat' split
    all_goals rfl
  simp [h]

/-- C10: in secure mode, an authenticated message whose claimed role has
no entry in the RBAC table is rejected with `"forbidden_action"`: a missing
role is an empty allowed set, and the lookup is total. -/
theorem unknown_role_forbidden (c : Controller) (m : Message) (accept_draw : ℚ)
    (hmode : c.mode = "secure")
    (hauth : (c.authenticate_secure m).1 = true)
    (hrole : alist_get c.rbac_policies m.role = none) :
    c.process_message m accept_draw =
      (Decision.mk false false "forbidden_action" c.security_overhead_ms, c) := by
  simp [Controller.process_message, Controller.authorise, hmode, hauth, hrole]

/-- Witness for C10: valid credentials but an unknown claimed role. -/
theorem unknown_role_forbidden_witness :
    cSecure.process_message msgGhost 0 =
      (Decision.mk false false "forbidden_action" cSecure.security_overhead_ms, cSecure) :=
  unknown_role_forbidden cSecure msgGhost 0 rfl rfl rfl

/-- C8: constructing a controller succeeds exactly for modes `"weak"` and
`"secure"` (any other mode is the one hard failure, raised before any
message is processed); and under a valid mode `send` (hence
`process_message`) is total and always returns a structured result whose
reason is in the fixed vocabulary — failures are returned, never thrown. -/
theorem controller_total :
    (∀ (mode : String) (rbac_policies : Option (List (String × List String))) (ov : ℚ),
      exceptOk (Controller.make mode rbac_policies ov) = true ↔
        (mode = "weak" ∨ mode = "secure")) ∧
    (∀ (net : NetworkSimulator) (c : Controller) (m : Message)
        (latency_draw drop_draw accept_draw : ℚ),
      c.mode = "weak" ∨ c.mode = "secure" →
      reason_vocab ((net.send m c latency_draw drop_draw accept_draw).1.reason)) := by
  constructor
  · intro mode rbac_policies ov
    by_cases h : mode ≠ "weak" ∧ mode ≠ "secure"
    · simp only [Controller.make, if_pos h, exceptOk, Bool.false_eq_true, false_iff]
      push_neg
      exact h
    · simp only [Controller.make, if_neg h, exceptOk, true_iff]
      rw [not_and_or, not_not, not_not] at h
      exact h
  · intro net c m latency_draw drop_draw accept_draw hm
    unfold NetworkSimulator.send
    by_cases hdrop : drop_draw < net.loss_probability
    · simp [hdrop, reason_vocab]
    · simp only [if_neg hdrop]
      rcases hm with hm | hm
      · rcases hreg : alist_get c.device_registry m.device_id with _ | r
        · by_cases hd : accept_draw < (2 : ℚ)⁻¹
          · simp [Controller.process_message, Controller.authenticate_weak, hm, hreg, hd,
              reason_vocab]
          · simp [Controller.process_message, Controller.authenticate_weak, hm, hreg, hd,
              reason_vocab]
        · simp [Controller.process_message, Controller.authenticate_weak, hm, hreg, reason_vocab]
      · rcases authenticate_secure_cases c m with ha | ha | ha | ha <;>
          by_cases hact : m.action ∈ (alist_get c.rbac_policies m.role).getD [] <;>
          simp [Controller.process_message, Controller.authorise, hm, ha, hact, reason_vocab]

/-- Witness for C8: a secure controller is constructible and the concrete
send yields a vocabulary reason. -/
theorem controller_total_witness :
    exceptOk (Controller.make "secure" none 5) = true ∧
    reason_vocab ((net0.send msg1 cSecure 50 0 0).1.reason) :=
  ⟨(controller_total.1 "secure" none 5).mpr (Or.inr rfl),
   controller_total.2 net0 cSecure msg1 50 0 0 (Or.inr rfl)⟩

end Warehouse
